import Mathlib

/-!
Verification development for the iambic Okta group reconciliation engine
(source: src/iambic/okta/group/models.py).

The file shallowly embeds `OktaGroupTemplate.apply` and
`OktaGroupTemplate._apply_to_account` together with the data model they use.
The provider adapter helpers imported from `iambic.okta.group.utils`
(`get_group`, `create_group`, `update_group_name`, `update_group_description`,
`update_group_members`, `maybe_delete_group`) and the core-model helpers
(`ExpiryModel`, `remove_expired_resources`, `BaseTemplate.delete`) are not part
of the sources; those are modelled from the specification and carry a
doc comment saying so.

Effects are made observable: every adapter interaction is recorded as an
`AdapterCall`, and calls dispatched in one `asyncio.gather` batch are grouped
into one phase of a `schedule`.  `asyncio.gather` without `return_exceptions`
re-raises the first exception raised by its tasks, which the embedding models
with `Except`: an erroring task makes the whole gather (and hence the caller)
return that error, dropping the sibling results.
-/

namespace Iambic

/-- Embeds `ProposedChangeType` from iambic.core.models (not under src).
Modelled from the spec: `changeType: CREATE | UPDATE | DELETE`. -/
inductive ProposedChangeType
  | create
  | update
  | delete
deriving DecidableEq, Repr

/-- Attribute values carried in a change record (before/after). -/
inductive AttrVal
  | str : String → AttrVal
  | strList : List String → AttrVal
deriving DecidableEq, Repr

/-- Embeds `ProposedChange` from iambic.core.models (not under src).
Modelled from the spec: one atomic diff unit
`{changeType, resourceId, resourceType, field?, before?, after?}`. -/
structure ProposedChange where
  change_type : ProposedChangeType
  resource_id : String
  resource_type : String
  field : Option String := none
  before : Option AttrVal := none
  after : Option AttrVal := none
deriving DecidableEq, Repr

/-- Embeds `UserStatus` from src/iambic/okta/group/models.py lines 32-35. -/
inductive UserStatus
  | active
  | provisioned
  | deprovisioned
deriving DecidableEq, Repr

/-- Embeds `UserSimple` from src/iambic/okta/group/models.py lines 38-48: a group
member with nested lifecycle fields (`ExpiryModel` is not under src; its
`expires_at` and explicit `deleted` flag are modelled from the spec). -/
structure UserSimple where
  username : String
  status : UserStatus := UserStatus.active
  expires_at : Option Nat := none
  deleted : Bool := false
deriving DecidableEq, Repr

/-- Live Okta group state, `iambic.okta.models.Group` (not under src).
Modelled from the spec: the concrete current state returned by
`adapter.fetch`/`adapter.create`; members are identified by username. -/
structure Group where
  group_id : String
  idp_name : String
  name : String
  description : String
  members : List String := []
deriving DecidableEq, Repr

/-- One configured Okta tenant, `iambic.config.models.OktaOrganization`
(not under src).  Besides the tenant name the record carries the provider
oracle for this reconciliation: the live state `adapter.fetch` will report for
the template's group, and whether a `create` call would be rejected with a
`ProviderError` (the spec allows any adapter call to fail; the model places the
failure oracle at the create call, which suffices to exercise the failure
paths the code has). -/
structure OktaOrganization where
  idp_name : String
  live : Option Group := none
  create_fails : Bool := false
deriving DecidableEq, Repr

/-- The slice of `iambic.config.models.Config` the engine reads
(not under src): the ordered list of configured tenants. -/
structure Config where
  okta_organizations : List OktaOrganization
deriving DecidableEq, Repr

/-- Embeds `ExecutionContext` from iambic.core.context (not under src).
Modelled from the spec: a single `execute` flag. -/
structure ExecutionContext where
  execute : Bool
deriving DecidableEq, Repr

/-- Embeds `OktaGroupTemplateProperties` from src/iambic/okta/group/models.py
lines 63-83. -/
structure OktaGroupTemplateProperties where
  name : String
  owner : Option String := none
  idp_name : String
  group_id : String := ""
  description : String := ""
  members : List UserSimple := []
deriving DecidableEq, Repr

/-- Embeds `OktaGroupTemplate` from src/iambic/okta/group/models.py lines 86-90.
`file_path` comes from `BaseTemplate`; `expires_at` and the explicit `deleted`
flag come from `ExpiryModel` (both not under src, modelled from the spec).
`force_delete` is the spec's Template field `forceDelete`; no code under src
reads it. -/
structure OktaGroupTemplate where
  file_path : String
  properties : OktaGroupTemplateProperties
  expires_at : Option Nat := none
  deleted : Bool := false
  force_delete : Bool := false
deriving DecidableEq, Repr

/-- Modelled from the spec: `evaluateLifecycle(entity, now) -> {deleted}` —
deleted iff `now > entity.expiresAt` or an explicit deleted flag is set
(spec section 4.2; the implementation lives in iambic.core.models, not under
src). -/
def evaluateLifecycle (explicitDeleted : Bool) (expires_at : Option Nat) (now : Nat) : Bool :=
  explicitDeleted ||
    (match expires_at with
     | some t => decide (t < now)
     | none => false)

/-- The derived `deleted` attribute the code reads as `self.deleted`. -/
def OktaGroupTemplate.isDeleted (t : OktaGroupTemplate) (now : Nat) : Bool :=
  evaluateLifecycle t.deleted t.expires_at now

/-- The derived `deleted` attribute of a nested member. -/
def UserSimple.isDeleted (u : UserSimple) (now : Nat) : Bool :=
  evaluateLifecycle u.deleted u.expires_at now

/-- Modelled from the spec: `remove_expired_resources` / `pruneExpired`
(iambic.core.models, not under src) removes expired members from the in-memory
desired-state collection before diffing and performs no provider call
(spec section 4.2). -/
def OktaGroupTemplate.remove_expired_resources (t : OktaGroupTemplate) (now : Nat) :
    OktaGroupTemplate :=
  { t with properties :=
      { t.properties with members :=
          t.properties.members.filter (fun m => !(m.isDeleted now)) } }

/-- One provider-adapter interaction, recorded for observability. -/
inductive AdapterCall
  | fetch
  | createCall
  | updateName
  | updateDescription
  | updateMembers
  | deleteCall
deriving DecidableEq, Repr

/-- A fetch is the only non-mutating adapter call. -/
def AdapterCall.isMutating : AdapterCall → Bool
  | .fetch => false
  | _ => true

/-- Embeds `ProviderError` — an adapter call rejected by the provider
(spec section 7). -/
inductive ProviderError
  | providerError (idp_name : String)
deriving DecidableEq, Repr

deriving instance DecidableEq for Except

/-- Modelled from the spec: `get_group` / `adapter.fetch`
(iambic.okta.group.utils, not under src) — returns the concrete current
state or absent. -/
def get_group (org : OktaOrganization) : Option Group :=
  org.live

/-- Modelled from the spec: `create_group` / `adapter.create`
(iambic.okta.group.utils, not under src) — fails with `ProviderError` on
rejection, otherwise the created state (name and description as requested,
no members yet) becomes current. -/
def create_group (group_name : String) (idp_name : String) (descr : String)
    (group_id : String) (org : OktaOrganization) : Except ProviderError Group :=
  if org.create_fails then
    Except.error (ProviderError.providerError org.idp_name)
  else
    Except.ok
      { group_id := group_id, idp_name := idp_name, name := group_name,
        description := descr, members := [] }

/-- Modelled from the spec: `update_group_name` (iambic.okta.group.utils, not
under src) — compute the diff between current and desired name; if
`context.execute`, invoke the adapter update call, otherwise synthesize the
same `ProposedChange` list without calling the adapter (spec section 4.4
step 4).  Returns the change list and the adapter calls issued. -/
def update_group_name (current : Group) (desired : String) (ctx : ExecutionContext) :
    List ProposedChange × List AdapterCall :=
  if current.name = desired then ([], [])
  else
    ([{ change_type := ProposedChangeType.update, resource_id := current.group_id,
        resource_type := "okta:group", field := some "name",
        before := some (AttrVal.str current.name), after := some (AttrVal.str desired) }],
     if ctx.execute then [AdapterCall.updateName] else [])

/-- Modelled from the spec: `update_group_description` (iambic.okta.group.utils,
not under src) — same shape as the name reconciler. -/
def update_group_description (current : Group) (desired : String)
    (ctx : ExecutionContext) : List ProposedChange × List AdapterCall :=
  if current.description = desired then ([], [])
  else
    ([{ change_type := ProposedChangeType.update, resource_id := current.group_id,
        resource_type := "okta:group", field := some "description",
        before := some (AttrVal.str current.description),
        after := some (AttrVal.str desired) }],
     if ctx.execute then [AdapterCall.updateDescription] else [])

/-- Modelled from the spec: `update_group_members` (iambic.okta.group.utils,
not under src) — diffs the current member usernames against the desired ones
and, per the spec scenario, reports one
`ProposedChange{UPDATE, field=members, after=desired}` when they differ. -/
def update_group_members (current : Group) (desired : List UserSimple)
    (ctx : ExecutionContext) : List ProposedChange × List AdapterCall :=
  let desiredNames := desired.map (fun u => u.username)
  if current.members = desiredNames then ([], [])
  else
    ([{ change_type := ProposedChangeType.update, resource_id := current.group_id,
        resource_type := "okta:group", field := some "members",
        before := some (AttrVal.strList current.members),
        after := some (AttrVal.strList desiredNames) }],
     if ctx.execute then [AdapterCall.updateMembers] else [])

/-- Modelled from the spec: `maybe_delete_group` (iambic.okta.group.utils, not
under src) — if the template was marked deleted, report a
`ProposedChange{DELETE}` (under both modes, so that plan runs reveal the
deletion) and issue the provider delete call only when `context.execute`
(spec sections 4.4 step 5 and 8). -/
def maybe_delete_group (deleted : Bool) (current : Group) (ctx : ExecutionContext) :
    List ProposedChange × List AdapterCall :=
  if deleted then
    ([{ change_type := ProposedChangeType.delete, resource_id := current.group_id,
        resource_type := "okta:group" }],
     if ctx.execute then [AdapterCall.deleteCall] else [])
  else ([], [])

/-- The resource dict built by `apply_resource_dict`
(src/iambic/okta/group/models.py lines 143-150). -/
structure ResourceDict where
  name : String
  description : String
  members : List UserSimple
deriving DecidableEq, Repr

/-- Embeds `AccountChangeDetails` from iambic.core.models (not under src).
Modelled from the spec: the per-tenant `TenantChangeDetails`
`{tenantId, resourceId, currentValue?, newValue, proposedChanges}`. -/
structure AccountChangeDetails where
  account : String
  resource_id : String
  current_value : Option Group := none
  new_value : ResourceDict
  proposed_changes : List ProposedChange := []
deriving DecidableEq, Repr

/-- Embeds `TemplateChangeDetails` from iambic.core.models (not under src).
Modelled from the spec: the per-template report; the code stores the
per-account details in its `proposed_changes` field. -/
structure TemplateChangeDetails where
  resource_id : String
  resource_type : String
  template_path : String
  proposed_changes : List AccountChangeDetails := []
deriving DecidableEq, Repr

/-- Embeds `apply_resource_dict` from src/iambic/okta/group/models.py lines 143-150. -/
def OktaGroupTemplate.apply_resource_dict (t : OktaGroupTemplate) : ResourceDict :=
  { name := t.properties.name, description := t.properties.description,
    members := t.properties.members }

/-- Result of one `_apply_to_account` run: the returned change details, the
adapter calls grouped by dispatch phase (calls in one phase were scheduled in
the same `asyncio.gather`), and whether the run called `self.delete()` on the
template. -/
structure ReconcileResult where
  details : AccountChangeDetails
  schedule : List (List AdapterCall)
  template_self_deleted : Bool
deriving DecidableEq, Repr

/-- The tail of `_apply_to_account` once a current group exists
(src/iambic/okta/group/models.py lines 205-266): prune expired members, gather
the three field reconcilers together with `maybe_delete_group` in one batch,
extend the change details with every produced change, and in execute mode
self-delete the template when it is marked deleted. -/
def reconcileFields (t : OktaGroupTemplate) (details : AccountChangeDetails)
    (current : Group) (ctx : ExecutionContext) (now : Nat)
    (sched : List (List AdapterCall)) : ReconcileResult :=
  let pruned := t.remove_expired_resources now
  let nameR := update_group_name current pruned.properties.name ctx
  let descR := update_group_description current pruned.properties.description ctx
  let memR := update_group_members current pruned.properties.members ctx
  let delR := maybe_delete_group (t.isDeleted now) current ctx
  let changes_made := [nameR.1, descR.1, memR.1, delR.1]
  let details2 :=
    if changes_made.any (fun l => !l.isEmpty) then
      { details with proposed_changes := details.proposed_changes ++ changes_made.flatten }
    else details
  { details := details2,
    schedule := sched ++ [nameR.2 ++ descR.2 ++ memR.2 ++ delR.2],
    template_self_deleted := ctx.execute && t.isDeleted now }

/-- Embeds `_apply_to_account` from src/iambic/okta/group/models.py lines 152-266:
fetch the current group; when absent, record a CREATE proposal and either
return immediately (detect mode) or create the group (apply mode, where a
provider rejection raises out of the reconciler); then run the field-and-
deletion batch. -/
def OktaGroupTemplate.apply_to_account (t : OktaGroupTemplate)
    (org : OktaOrganization) (ctx : ExecutionContext) (now : Nat) :
    Except ProviderError ReconcileResult :=
  let proposed_group := t.apply_resource_dict
  let details0 : AccountChangeDetails :=
    { account := t.properties.idp_name, resource_id := t.properties.group_id,
      new_value := proposed_group, proposed_changes := [] }
  match get_group org with
  | some g =>
      Except.ok (reconcileFields t { details0 with current_value := some g } g ctx now
        [[AdapterCall.fetch]])
  | none =>
      let details1 :=
        { details0 with proposed_changes :=
            [{ change_type := ProposedChangeType.create,
               resource_id := t.properties.group_id,
               resource_type := "okta:group" }] }
      if ctx.execute then
        match create_group t.properties.name t.properties.idp_name
            t.properties.description t.properties.group_id org with
        | Except.error e => Except.error e
        | Except.ok g =>
            Except.ok (reconcileFields t { details1 with current_value := some g } g ctx now
              [[AdapterCall.fetch], [AdapterCall.createCall]])
      else
        Except.ok
          { details := details1, schedule := [[AdapterCall.fetch]],
            template_self_deleted := false }

/-- Models `asyncio.gather` without `return_exceptions`: every task runs, the results
are returned in task order, and the first error is re-raised, dropping every
sibling result. -/
def collectOks : List (Except ProviderError ReconcileResult) →
    Except ProviderError (List ReconcileResult)
  | [] => Except.ok []
  | Except.error e :: _ => Except.error e
  | Except.ok r :: rest =>
      match collectOks rest with
      | Except.error e => Except.error e
      | Except.ok rs => Except.ok (r :: rs)

/-- Result of one `apply` run: the returned `TemplateChangeDetails` report and
the full per-tenant gather results (in configured-tenant order) it was built
from. -/
structure ApplyResult where
  report : TemplateChangeDetails
  accountResults : List ReconcileResult
deriving DecidableEq, Repr

/-- Embeds `apply` from src/iambic/okta/group/models.py lines 92-133: schedule one
`_apply_to_account` per configured tenant in one gather, then keep only the
per-account details with a truthy (non-empty) `proposed_changes` list. -/
def OktaGroupTemplate.apply (t : OktaGroupTemplate) (config : Config)
    (ctx : ExecutionContext) (now : Nat) : Except ProviderError ApplyResult :=
  match collectOks (config.okta_organizations.map
      (fun org => t.apply_to_account org ctx now)) with
  | Except.error e => Except.error e
  | Except.ok rs =>
      Except.ok
        { accountResults := rs,
          report :=
            { resource_id := t.properties.group_id,
              resource_type := "NOQ::Okta::Group",
              template_path := t.file_path,
              proposed_changes :=
                (rs.map (fun r => r.details)).filter
                  (fun d => !d.proposed_changes.isEmpty) } }

/-- The mutating adapter calls of a schedule (everything except fetch). -/
def mutatingCalls (sched : List (List AdapterCall)) : List AdapterCall :=
  sched.flatten.filter AdapterCall.isMutating

/-- The change list returned for one tenant, `[]` when the run errored. -/
def accountChangesOf (x : Except ProviderError ReconcileResult) : List ProposedChange :=
  match x with
  | Except.ok r => r.details.proposed_changes
  | Except.error _ => []

/-- The flat adapter-call list of one tenant run, `[]` when the run errored. -/
def accountCallsOf (x : Except ProviderError ReconcileResult) : List AdapterCall :=
  match x with
  | Except.ok r => r.schedule.flatten
  | Except.error _ => []

/-- The dispatch schedule of one tenant run, `[]` when the run errored. -/
def accountScheduleOf (x : Except ProviderError ReconcileResult) :
    List (List AdapterCall) :=
  match x with
  | Except.ok r => r.schedule
  | Except.error _ => []

/-- Whether one tenant run called `self.delete()` on the template. -/
def accountSelfDeleted (x : Except ProviderError ReconcileResult) : Bool :=
  match x with
  | Except.ok r => r.template_self_deleted
  | Except.error _ => false

/-- The detect-mode execution context. -/
def ctxDetect : ExecutionContext := { execute := false }

/-- The apply-mode execution context. -/
def ctxApply : ExecutionContext := { execute := true }

/-- A sample desired member. -/
def userBob : UserSimple := { username := "bob" }

/-- Concrete template used by the closed counterexample and witness theorems. -/
def tpl0 : OktaGroupTemplate :=
  { file_path := "okta/groups/example/eng.yaml",
    properties :=
      { name := "eng", idp_name := "example", group_id := "g1",
        description := "", members := [userBob] } }

/-- A tenant whose live state lacks the group and accepts creates. -/
def orgAbsent : OktaOrganization := { idp_name := "org0" }

/-- A tenant whose live state lacks the group and rejects creates. -/
def orgCreateFails : OktaOrganization := { idp_name := "org1", create_fails := true }

/-- A live group matching tpl0 apart from having no members yet. -/
def groupNoMembers : Group :=
  { group_id := "g1", idp_name := "example", name := "eng", description := "",
    members := [] }

/-- A tenant with member drift relative to tpl0. -/
def orgDrift : OktaOrganization := { idp_name := "org2", live := some groupNoMembers }

/-- A two-tenant configuration with one absent and one drifting group. -/
def cfg0 : Config := { okta_organizations := [orgAbsent, orgDrift] }

/-- tpl0 with the explicit deleted flag set (force_delete stays false). -/
def tplDeleted : OktaGroupTemplate := { tpl0 with deleted := true }

/-- A live group whose name drifted from tpl0 but whose members match. -/
def groupOldName : Group :=
  { group_id := "g1", idp_name := "example", name := "old", description := "",
    members := ["bob"] }

/-- A tenant holding groupOldName. -/
def orgOldName : OktaOrganization := { idp_name := "org3", live := some groupOldName }

/-- A live group matching tpl0 exactly. -/
def groupMatchBob : Group :=
  { group_id := "g1", idp_name := "example", name := "eng", description := "",
    members := ["bob"] }

/-- A tenant holding groupMatchBob. -/
def orgMatchBob : OktaOrganization := { idp_name := "org4", live := some groupMatchBob }

/-- A single-tenant configuration whose live state matches tpl0. -/
def cfgMatch : Config := { okta_organizations := [orgMatchBob] }

/-- The apply result, or an empty placeholder when the run errored. -/
def applyResultOr (x : Except ProviderError ApplyResult) : ApplyResult :=
  match x with
  | Except.ok r => r
  | Except.error _ =>
      { report := { resource_id := "", resource_type := "", template_path := "" },
        accountResults := [] }

theorem update_group_name_snd_no_execute (c : Group) (d : String)
    (ctx : ExecutionContext) (h : ctx.execute = false) :
    (update_group_name c d ctx).2 = [] := by
  unfold update_group_name
  by_cases hc : c.name = d
  · rw [if_pos hc]
  · rw [if_neg hc, h]
    rfl

theorem update_group_description_snd_no_execute (c : Group) (d : String)
    (ctx : ExecutionContext) (h : ctx.execute = false) :
    (update_group_description c d ctx).2 = [] := by
  unfold update_group_description
  by_cases hc : c.description = d
  · rw [if_pos hc]
  · rw [if_neg hc, h]
    rfl

theorem update_group_members_snd_no_execute (c : Group) (d : List UserSimple)
    (ctx : ExecutionContext) (h : ctx.execute = false) :
    (update_group_members c d ctx).2 = [] := by
  unfold update_group_members
  by_cases hc : c.members = d.map (fun u => u.username)
  · rw [if_pos hc]
  · rw [if_neg hc, h]
    rfl

theorem maybe_delete_group_snd_no_execute (b : Bool) (c : Group)
    (ctx : ExecutionContext) (h : ctx.execute = false) :
    (maybe_delete_group b c ctx).2 = [] := by
  unfold maybe_delete_group
  cases b with
  | false => rw [if_neg Bool.false_ne_true]
  | true =>
      rw [if_pos rfl, h]
      rfl

theorem reconcileFields_detect_mutating (t : OktaGroupTemplate)
    (details : AccountChangeDetails) (current : Group) (now : Nat)
    (sched : List (List AdapterCall)) (h : mutatingCalls sched = []) :
    mutatingCalls (reconcileFields t details current ctxDetect now sched).schedule = [] := by
  unfold reconcileFields
  unfold mutatingCalls at h ⊢
  simp only [List.flatten_append, List.filter_append, List.flatten_cons,
    List.flatten_nil, List.append_nil, h,
    update_group_name_snd_no_execute _ _ _ (rfl : ctxDetect.execute = false),
    update_group_description_snd_no_execute _ _ _ (rfl : ctxDetect.execute = false),
    update_group_members_snd_no_execute _ _ _ (rfl : ctxDetect.execute = false),
    maybe_delete_group_snd_no_execute _ _ _ (rfl : ctxDetect.execute = false),
    List.nil_append, List.filter_nil]

theorem apply_to_account_detect (t : OktaGroupTemplate) (org : OktaOrganization)
    (now : Nat) :
    ∃ r, t.apply_to_account org ctxDetect now = Except.ok r ∧
      mutatingCalls r.schedule = [] := by
  unfold OktaGroupTemplate.apply_to_account
  cases hg : get_group org with
  | some g =>
      exact ⟨_, rfl, reconcileFields_detect_mutating _ _ _ _ _ rfl⟩
  | none =>
      exact ⟨_, rfl, rfl⟩

theorem collectOks_map_forall {α : Type} (f : α → Except ProviderError ReconcileResult)
    (P : ReconcileResult → Prop) :
    ∀ l : List α, (∀ a ∈ l, ∃ r, f a = Except.ok r ∧ P r) →
      ∃ rs, collectOks (l.map f) = Except.ok rs ∧ ∀ r ∈ rs, P r
  | [], _ => ⟨[], rfl, by simp⟩
  | a :: l, h => by
      obtain ⟨r, hr, hp⟩ := h a (List.mem_cons_self a l)
      obtain ⟨rs, hrs, hps⟩ :=
        collectOks_map_forall f P l (fun b hb => h b (List.mem_cons_of_mem a hb))
      refine ⟨r :: rs, ?_, ?_⟩
      · simp only [List.map_cons, hr, collectOks, hrs]
      · intro x hx
        rcases List.mem_cons.mp hx with h1 | h1
        · exact h1 ▸ hp
        · exact hps x h1

/-- Claim C1: with an ExecutionContext whose execute flag is false, `apply`
runs every configured tenant, returns its report, and no tenant run issues a
create, update, or delete adapter call — only fetch calls appear in any
schedule. -/
theorem detect_mode_issues_no_mutating_calls (t : OktaGroupTemplate)
    (config : Config) (now : Nat) :
    ∃ r, t.apply config ctxDetect now = Except.ok r ∧
      ∀ res ∈ r.accountResults, mutatingCalls res.schedule = [] := by
  obtain ⟨rs, hrs, hms⟩ :=
    collectOks_map_forall (fun org => t.apply_to_account org ctxDetect now)
      (fun r => mutatingCalls r.schedule = []) config.okta_organizations
      (fun org _ => apply_to_account_detect t org now)
  unfold OktaGroupTemplate.apply
  rw [hrs]
  exact ⟨_, rfl, hms⟩

/-- Witness for C1 at a concrete template and two-tenant configuration. -/
theorem detect_mode_issues_no_mutating_calls_witness :
    ∃ r, tpl0.apply cfg0 ctxDetect 0 = Except.ok r ∧
      ∀ res ∈ r.accountResults, mutatingCalls res.schedule = [] :=
  detect_mode_issues_no_mutating_calls tpl0 cfg0 0

/-- Claim C4: when fetch reports the group absent and execute is false, the
tenant reconciler returns exactly one CREATE proposal and its schedule holds
nothing but the fetch call. -/
theorem create_gating (t : OktaGroupTemplate) (org : OktaOrganization) (now : Nat)
    (h : org.live = none) :
    ∃ r, t.apply_to_account org ctxDetect now = Except.ok r ∧
      r.details.proposed_changes.map (fun pc => pc.change_type) =
        [ProposedChangeType.create] ∧
      r.schedule = [[AdapterCall.fetch]] := by
  unfold OktaGroupTemplate.apply_to_account get_group
  rw [h]
  exact ⟨_, rfl, rfl, rfl⟩

/-- Witness for C4 at a concrete template and absent tenant. -/
theorem create_gating_witness :
    ∃ r, tpl0.apply_to_account orgAbsent ctxDetect 0 = Except.ok r ∧
      r.details.proposed_changes.map (fun pc => pc.change_type) =
        [ProposedChangeType.create] ∧
      r.schedule = [[AdapterCall.fetch]] :=
  create_gating tpl0 orgAbsent 0 rfl

theorem update_group_name_fst_ctx (c : Group) (d : String)
    (ctx ctx2 : ExecutionContext) :
    (update_group_name c d ctx).1 = (update_group_name c d ctx2).1 := by
  unfold update_group_name
  by_cases hc : c.name = d
  · rw [if_pos hc, if_pos hc]
  · rw [if_neg hc, if_neg hc]

theorem update_group_description_fst_ctx (c : Group) (d : String)
    (ctx ctx2 : ExecutionContext) :
    (update_group_description c d ctx).1 = (update_group_description c d ctx2).1 := by
  unfold update_group_description
  by_cases hc : c.description = d
  · rw [if_pos hc, if_pos hc]
  · rw [if_neg hc, if_neg hc]

theorem update_group_members_fst_ctx (c : Group) (d : List UserSimple)
    (ctx ctx2 : ExecutionContext) :
    (update_group_members c d ctx).1 = (update_group_members c d ctx2).1 := by
  unfold update_group_members
  by_cases hc : c.members = d.map (fun u => u.username)
  · rw [if_pos hc, if_pos hc]
  · rw [if_neg hc, if_neg hc]

theorem maybe_delete_group_fst_ctx (b : Bool) (c : Group)
    (ctx ctx2 : ExecutionContext) :
    (maybe_delete_group b c ctx).1 = (maybe_delete_group b c ctx2).1 := by
  unfold maybe_delete_group
  cases b with
  | false => rw [if_neg Bool.false_ne_true, if_neg Bool.false_ne_true]
  | true => rw [if_pos rfl, if_pos rfl]

theorem reconcileFields_changes_ctx (t : OktaGroupTemplate)
    (details : AccountChangeDetails) (current : Group) (now : Nat)
    (ctx ctx2 : ExecutionContext) (sched sched2 : List (List AdapterCall)) :
    (reconcileFields t details current ctx now sched).details =
    (reconcileFields t details current ctx2 now sched2).details := by
  unfold reconcileFields
  simp only [update_group_name_fst_ctx current _ ctx ctx2,
    update_group_description_fst_ctx current _ ctx ctx2,
    update_group_members_fst_ctx current _ ctx ctx2,
    maybe_delete_group_fst_ctx _ current ctx ctx2]

/-- Claim C2 (amended): on a tenant whose group already exists, a detect run
and an apply run against the same live state return the same per-tenant
`AccountChangeDetails` (in particular the same ProposedChange list). -/
theorem mode_equivalence_on_existing (t : OktaGroupTemplate)
    (org : OktaOrganization) (now : Nat) (g : Group) (h : org.live = some g) :
    ∃ rd ra, t.apply_to_account org ctxDetect now = Except.ok rd ∧
      t.apply_to_account org ctxApply now = Except.ok ra ∧
      rd.details = ra.details := by
  unfold OktaGroupTemplate.apply_to_account get_group
  rw [h]
  exact ⟨_, _, rfl, rfl, reconcileFields_changes_ctx _ _ _ _ _ _ _ _⟩

/-- Witness for the amended C2 at a concrete drifting tenant. -/
theorem mode_equivalence_on_existing_witness :
    ∃ rd ra, tpl0.apply_to_account orgDrift ctxDetect 0 = Except.ok rd ∧
      tpl0.apply_to_account orgDrift ctxApply 0 = Except.ok ra ∧
      rd.details = ra.details :=
  mode_equivalence_on_existing tpl0 orgDrift 0 groupNoMembers rfl

/-- The members update entry that apply mode produces after creating the
missing group for tpl0. -/
def pcMembersBob : ProposedChange :=
  { change_type := ProposedChangeType.update, resource_id := "g1",
    resource_type := "okta:group", field := some "members",
    before := some (AttrVal.strList []), after := some (AttrVal.strList ["bob"]) }

/-- Counterexample to C2 as stated: on an absent group the detect run returns
only the CREATE entry, while the apply run additionally returns the members
update it computed against the freshly created (member-less) group — the two
ProposedChange sets differ. -/
theorem mode_equivalence_counterexample :
    pcMembersBob ∈ accountChangesOf (tpl0.apply_to_account orgAbsent ctxApply 0) ∧
    pcMembersBob ∉ accountChangesOf (tpl0.apply_to_account orgAbsent ctxDetect 0) := by
  decide

theorem collectOks_error_of_mem :
    ∀ xs : List (Except ProviderError ReconcileResult),
      (∃ x ∈ xs, ∃ e, x = Except.error e) →
      ∃ e2, collectOks xs = Except.error e2
  | [], h => absurd h (by simp)
  | Except.error e :: _, _ => ⟨e, rfl⟩
  | Except.ok r :: xs, h => by
      have htail : ∃ x ∈ xs, ∃ e, x = Except.error e := by
        obtain ⟨x, hx, e, hxe⟩ := h
        rcases List.mem_cons.mp hx with h1 | h1
        · rw [h1] at hxe
          exact absurd hxe (by simp)
        · exact ⟨x, h1, e, hxe⟩
      obtain ⟨e2, he2⟩ := collectOks_error_of_mem xs htail
      exact ⟨e2, by rw [collectOks, he2]⟩

/-- Claim C3 (amended): if any configured tenant reconciliation raises a
provider error, the whole apply raises as well — no report is returned, so the
sibling tenants results are dropped rather than surfaced. -/
theorem tenant_failure_aborts_apply (t : OktaGroupTemplate) (config : Config)
    (ctx : ExecutionContext) (now : Nat) (org : OktaOrganization)
    (e : ProviderError) (horg : org ∈ config.okta_organizations)
    (h : t.apply_to_account org ctx now = Except.error e) :
    ∃ e2, t.apply config ctx now = Except.error e2 := by
  obtain ⟨e2, he2⟩ := collectOks_error_of_mem
    (config.okta_organizations.map (fun o => t.apply_to_account o ctx now))
    ⟨t.apply_to_account org ctx now, List.mem_map_of_mem _ horg, e, h⟩
  exact ⟨e2, by unfold OktaGroupTemplate.apply; rw [he2]⟩

/-- Witness for the amended C3: the failing tenant aborts a concrete
two-tenant apply run. -/
theorem tenant_failure_aborts_apply_witness :
    ∃ e2, tpl0.apply { okta_organizations := [orgCreateFails, orgDrift] }
      ctxApply 0 = Except.error e2 :=
  tenant_failure_aborts_apply tpl0
    { okta_organizations := [orgCreateFails, orgDrift] } ctxApply 0
    orgCreateFails (ProviderError.providerError "org1") (by decide) (by decide)

/-- Counterexample to C3 as stated: with tenant org1 failing its create and
tenant org2 having computable drift, the whole apply run returns the provider
error — org2 appears in no report at all, even though its own reconciliation
returns a non-empty change list. -/
theorem fanout_isolation_counterexample :
    tpl0.apply { okta_organizations := [orgCreateFails, orgDrift] } ctxApply 0 =
      Except.error (ProviderError.providerError "org1") ∧
    accountChangesOf (tpl0.apply_to_account orgDrift ctxApply 0) ≠ [] := by
  decide

/-- Claim C7 (amended): when the group is absent, execute is true and the
provider rejects the create call, the tenant reconciler raises the provider
error instead of returning — the already-built CREATE entry is discarded with
the rest of the tenant result. -/
theorem create_failure_aborts_tenant (t : OktaGroupTemplate)
    (org : OktaOrganization) (now : Nat) (h : org.live = none)
    (hf : org.create_fails = true) :
    t.apply_to_account org ctxApply now =
      Except.error (ProviderError.providerError org.idp_name) := by
  unfold OktaGroupTemplate.apply_to_account get_group create_group
  rw [h, hf]
  rfl

/-- Witness for the amended C7 at a concrete rejecting tenant. -/
theorem create_failure_aborts_tenant_witness :
    tpl0.apply_to_account orgCreateFails ctxApply 0 =
      Except.error (ProviderError.providerError "org1") :=
  create_failure_aborts_tenant tpl0 orgCreateFails 0 rfl rfl

/-- Counterexample to C7 as stated: the rejected create neither stays confined
to the tenant result nor preserves the CREATE entry — the tenant run returns
an error carrying no change list. -/
theorem create_failure_counterexample :
    tpl0.apply_to_account orgCreateFails ctxApply 0 =
      Except.error (ProviderError.providerError "org1") ∧
    accountChangesOf (tpl0.apply_to_account orgCreateFails ctxApply 0) = [] := by
  decide

theorem update_group_name_snd_sub (c : Group) (d : String) (ctx : ExecutionContext) :
    (update_group_name c d ctx).2 = [] ∨
    (update_group_name c d ctx).2 = [AdapterCall.updateName] := by
  unfold update_group_name
  by_cases hc : c.name = d
  · left; rw [if_pos hc]
  · cases hx : ctx.execute
    · left
      rw [if_neg hc]
      rfl
    · right
      rw [if_neg hc]
      rfl

theorem update_group_description_snd_sub (c : Group) (d : String)
    (ctx : ExecutionContext) :
    (update_group_description c d ctx).2 = [] ∨
    (update_group_description c d ctx).2 = [AdapterCall.updateDescription] := by
  unfold update_group_description
  by_cases hc : c.description = d
  · left; rw [if_pos hc]
  · cases hx : ctx.execute
    · left
      rw [if_neg hc]
      rfl
    · right
      rw [if_neg hc]
      rfl

theorem update_group_members_snd_sub (c : Group) (d : List UserSimple)
    (ctx : ExecutionContext) :
    (update_group_members c d ctx).2 = [] ∨
    (update_group_members c d ctx).2 = [AdapterCall.updateMembers] := by
  unfold update_group_members
  by_cases hc : c.members = d.map (fun u => u.username)
  · left; rw [if_pos hc]
  · cases hx : ctx.execute
    · left
      rw [if_neg hc]
      rfl
    · right
      rw [if_neg hc]
      rfl

theorem maybe_delete_group_snd_char (b : Bool) (c : Group) (ctx : ExecutionContext) :
    (maybe_delete_group b c ctx).2 =
      if b && ctx.execute then [AdapterCall.deleteCall] else [] := by
  unfold maybe_delete_group
  cases b
  · rw [if_neg Bool.false_ne_true]; rfl
  · rw [if_pos rfl]
    cases hx : ctx.execute
    · rfl
    · rfl

theorem update_group_name_fst_types (c : Group) (d : String) (ctx : ExecutionContext) :
    ∀ pc ∈ (update_group_name c d ctx).1,
      pc.change_type = ProposedChangeType.update := by
  unfold update_group_name
  by_cases hc : c.name = d
  · rw [if_pos hc]
    intro pc hpc
    exact absurd hpc (List.not_mem_nil pc)
  · rw [if_neg hc]
    intro pc hpc
    rw [List.mem_singleton.mp hpc]

theorem update_group_description_fst_types (c : Group) (d : String)
    (ctx : ExecutionContext) :
    ∀ pc ∈ (update_group_description c d ctx).1,
      pc.change_type = ProposedChangeType.update := by
  unfold update_group_description
  by_cases hc : c.description = d
  · rw [if_pos hc]
    intro pc hpc
    exact absurd hpc (List.not_mem_nil pc)
  · rw [if_neg hc]
    intro pc hpc
    rw [List.mem_singleton.mp hpc]

theorem update_group_members_fst_types (c : Group) (d : List UserSimple)
    (ctx : ExecutionContext) :
    ∀ pc ∈ (update_group_members c d ctx).1,
      pc.change_type = ProposedChangeType.update := by
  unfold update_group_members
  by_cases hc : c.members = d.map (fun u => u.username)
  · rw [if_pos hc]
    intro pc hpc
    exact absurd hpc (List.not_mem_nil pc)
  · rw [if_neg hc]
    intro pc hpc
    rw [List.mem_singleton.mp hpc]

theorem maybe_delete_group_fst_types (b : Bool) (c : Group) (ctx : ExecutionContext) :
    ∀ pc ∈ (maybe_delete_group b c ctx).1,
      pc.change_type = ProposedChangeType.delete := by
  unfold maybe_delete_group
  cases b
  · rw [if_neg Bool.false_ne_true]
    intro pc hpc
    exact absurd hpc (List.not_mem_nil pc)
  · rw [if_pos rfl]
    intro pc hpc
    rw [List.mem_singleton.mp hpc]

theorem reconcileFields_changes_eq (t : OktaGroupTemplate)
    (details : AccountChangeDetails) (current : Group) (ctx : ExecutionContext)
    (now : Nat) (sched : List (List AdapterCall)) :
    (reconcileFields t details current ctx now sched).details.proposed_changes =
      details.proposed_changes ++
        ((update_group_name current (t.remove_expired_resources now).properties.name ctx).1 ++
         ((update_group_description current
             (t.remove_expired_resources now).properties.description ctx).1 ++
          ((update_group_members current
              (t.remove_expired_resources now).properties.members ctx).1 ++
           (maybe_delete_group (t.isDeleted now) current ctx).1))) := by
  simp only [reconcileFields]
  by_cases hc :
      ([(update_group_name current (t.remove_expired_resources now).properties.name ctx).1,
        (update_group_description current
          (t.remove_expired_resources now).properties.description ctx).1,
        (update_group_members current
          (t.remove_expired_resources now).properties.members ctx).1,
        (maybe_delete_group (t.isDeleted now) current ctx).1].any
        (fun l => !l.isEmpty)) = true
  · rw [if_pos hc]
    simp
  · rw [if_neg hc]
    simp only [List.any_cons, List.any_nil, Bool.or_eq_true, Bool.not_eq_true',
      List.isEmpty_eq_false, not_or, not_not] at hc
    obtain ⟨h1, h2, h3, h4⟩ := hc
    simp [h1, h2, h3, h4]

/-- Claim C5 (amended): on a tenant whose group exists, the provider delete
call is issued iff the template is marked deleted and execute is true — the
spec forceDelete flag is never consulted (no code under src reads it), and the
template self-delete (`self.delete()`) likewise fires iff execute and deleted,
regardless of forceDelete and before any check of the provider delete
outcome. -/
theorem delete_gating_on_existing (t : OktaGroupTemplate) (org : OktaOrganization)
    (ctx : ExecutionContext) (now : Nat) (g : Group) (h : org.live = some g) :
    ∃ r, t.apply_to_account org ctx now = Except.ok r ∧
      r.template_self_deleted = (ctx.execute && t.isDeleted now) ∧
      (AdapterCall.deleteCall ∈ r.schedule.flatten ↔
        (t.isDeleted now && ctx.execute) = true) := by
  unfold OktaGroupTemplate.apply_to_account get_group
  rw [h]
  refine ⟨_, rfl, rfl, ?_⟩
  rcases update_group_name_snd_sub g
      (t.remove_expired_resources now).properties.name ctx with hn | hn <;>
    rcases update_group_description_snd_sub g
        (t.remove_expired_resources now).properties.description ctx with hdd | hdd <;>
      rcases update_group_members_snd_sub g
          (t.remove_expired_resources now).properties.members ctx with hm | hm <;>
        cases hx : (t.isDeleted now && ctx.execute) <;>
          simp [reconcileFields, hn, hdd, hm, maybe_delete_group_snd_char, hx]

/-- Witness for the amended C5 at a concrete deleted template and matching
tenant. -/
theorem delete_gating_on_existing_witness :
    ∃ r, tplDeleted.apply_to_account orgMatchBob ctxApply 0 = Except.ok r ∧
      r.template_self_deleted = (ctxApply.execute && tplDeleted.isDeleted 0) ∧
      (AdapterCall.deleteCall ∈ r.schedule.flatten ↔
        (tplDeleted.isDeleted 0 && ctxApply.execute) = true) :=
  delete_gating_on_existing tplDeleted orgMatchBob ctxApply 0 groupMatchBob rfl

/-- Counterexample to C5 as stated: with deleted=true, force_delete=false and
execute=true the run still issues the provider delete call and self-deletes
the template, although the claim requires forceDelete=true for both. -/
theorem delete_gating_counterexample :
    tplDeleted.force_delete = false ∧
    accountSelfDeleted (tplDeleted.apply_to_account orgMatchBob ctxApply 0) = true ∧
    AdapterCall.deleteCall ∈
      accountCallsOf (tplDeleted.apply_to_account orgMatchBob ctxApply 0) := by
  decide

/-- The adapter-call batch dispatched by the single field-and-deletion gather
of one tenant run on an existing group. -/
def gatherBatch (t : OktaGroupTemplate) (g : Group) (ctx : ExecutionContext)
    (now : Nat) : List AdapterCall :=
  (update_group_name g (t.remove_expired_resources now).properties.name ctx).2 ++
  (update_group_description g
    (t.remove_expired_resources now).properties.description ctx).2 ++
  (update_group_members g (t.remove_expired_resources now).properties.members ctx).2 ++
  (maybe_delete_group (t.isDeleted now) g ctx).2

/-- Claim C6 (amended): the delete dispatch is not sequenced after the
field-update pass — `maybe_delete_group` is scheduled in the same gather batch
as the three field updates, so the single post-fetch phase holds the update
calls and the delete call together; only the DELETE ProposedChange entries are
appended after all field-update entries in the returned list. -/
theorem delete_dispatch_same_batch (t : OktaGroupTemplate) (org : OktaOrganization)
    (ctx : ExecutionContext) (now : Nat) (g : Group) (h : org.live = some g) :
    ∃ r, t.apply_to_account org ctx now = Except.ok r ∧
      r.schedule = [[AdapterCall.fetch], gatherBatch t g ctx now] ∧
      ∃ u dl, r.details.proposed_changes = u ++ dl ∧
        (∀ pc ∈ u, pc.change_type ≠ ProposedChangeType.delete) ∧
        (∀ pc ∈ dl, pc.change_type = ProposedChangeType.delete) := by
  unfold OktaGroupTemplate.apply_to_account get_group
  rw [h]
  refine ⟨_, rfl, rfl, ?_⟩
  refine ⟨(update_group_name g (t.remove_expired_resources now).properties.name ctx).1 ++
      ((update_group_description g
          (t.remove_expired_resources now).properties.description ctx).1 ++
        (update_group_members g
          (t.remove_expired_resources now).properties.members ctx).1),
    (maybe_delete_group (t.isDeleted now) g ctx).1, ?_, ?_, ?_⟩
  · rw [reconcileFields_changes_eq]
    simp [List.append_assoc]
  · intro pc hpc
    rcases List.mem_append.mp hpc with h1 | h1
    · rw [update_group_name_fst_types g _ ctx pc h1]
      decide
    · rcases List.mem_append.mp h1 with h2 | h2
      · rw [update_group_description_fst_types g _ ctx pc h2]
        decide
      · rw [update_group_members_fst_types g _ ctx pc h2]
        decide
  · exact maybe_delete_group_fst_types _ _ _

/-- Witness for the amended C6 at a concrete deleted template with name
drift. -/
theorem delete_dispatch_same_batch_witness :
    ∃ r, tplDeleted.apply_to_account orgOldName ctxApply 0 = Except.ok r ∧
      r.schedule = [[AdapterCall.fetch], gatherBatch tplDeleted groupOldName ctxApply 0] ∧
      ∃ u dl, r.details.proposed_changes = u ++ dl ∧
        (∀ pc ∈ u, pc.change_type ≠ ProposedChangeType.delete) ∧
        (∀ pc ∈ dl, pc.change_type = ProposedChangeType.delete) :=
  delete_dispatch_same_batch tplDeleted orgOldName ctxApply 0 groupOldName rfl

/-- Counterexample to C6 as stated: for a deleted template with a pending name
update, the delete adapter call is dispatched in the same concurrent gather
batch as the field update — not after the field-update pass completed. -/
theorem delete_after_updates_counterexample :
    accountScheduleOf (tplDeleted.apply_to_account orgOldName ctxApply 0) =
      [[AdapterCall.fetch], [AdapterCall.updateName, AdapterCall.deleteCall]] := by
  decide

/-- Desired state matches live state for one tenant: the group exists and its
name, description and member usernames equal the template's desired values
(members after expiry pruning, since the reconciler diffs the pruned list).
A template marked deleted desires absence instead, so idempotence is stated
for non-deleted templates. -/
def matchesLive (t : OktaGroupTemplate) (org : OktaOrganization) (now : Nat) : Prop :=
  ∃ g, org.live = some g ∧ g.name = t.properties.name ∧
    g.description = t.properties.description ∧
    g.members = ((t.remove_expired_resources now).properties.members).map
      (fun u => u.username)

theorem apply_to_account_no_drift (t : OktaGroupTemplate) (org : OktaOrganization)
    (ctx : ExecutionContext) (now : Nat) (hm : matchesLive t org now)
    (hd : t.isDeleted now = false) :
    ∃ r, t.apply_to_account org ctx now = Except.ok r ∧
      r.details.proposed_changes = [] := by
  obtain ⟨g, hlive, hn, hdsc, hmem⟩ := hm
  unfold OktaGroupTemplate.apply_to_account get_group
  rw [hlive]
  refine ⟨_, rfl, ?_⟩
  rw [reconcileFields_changes_eq]
  simp only [OktaGroupTemplate.remove_expired_resources] at hmem ⊢
  unfold update_group_name update_group_description update_group_members
    maybe_delete_group
  rw [if_pos hn, if_pos hdsc, if_pos hmem, hd]
  rfl

/-- Claim C8: if every configured tenant's live state already matches the
template's desired state — as after a successful execute=true apply of a
non-deleted template — a further execute=true apply returns a report in which
every tenant's proposedChanges list is empty, so the filtered tenantChanges
list is empty. -/
theorem apply_idempotent_second_run (t : OktaGroupTemplate) (config : Config)
    (now : Nat) (hm : ∀ org ∈ config.okta_organizations, matchesLive t org now)
    (hd : t.isDeleted now = false) :
    ∃ r, t.apply config ctxApply now = Except.ok r ∧
      (∀ res ∈ r.accountResults, res.details.proposed_changes = []) ∧
      r.report.proposed_changes = [] := by
  obtain ⟨rs, hrs, hall⟩ :=
    collectOks_map_forall (fun org => t.apply_to_account org ctxApply now)
      (fun r => r.details.proposed_changes = []) config.okta_organizations
      (fun org ho => apply_to_account_no_drift t org ctxApply now (hm org ho) hd)
  unfold OktaGroupTemplate.apply
  rw [hrs]
  refine ⟨_, rfl, hall, ?_⟩
  simp only [List.filter_eq_nil_iff, List.mem_map, Bool.not_eq_true,
    forall_exists_index, and_imp]
  intro d res hres hd2
  rw [← hd2]
  simp [hall res hres]

/-- Witness for C8 at a concrete matching single-tenant configuration. -/
theorem apply_idempotent_second_run_witness :
    ∃ r, tpl0.apply cfgMatch ctxApply 0 = Except.ok r ∧
      (∀ res ∈ r.accountResults, res.details.proposed_changes = []) ∧
      r.report.proposed_changes = [] :=
  apply_idempotent_second_run tpl0 cfgMatch 0
    (by
      intro org ho
      have horg : org = orgMatchBob := by simpa [cfgMatch] using ho
      subst horg
      exact ⟨groupMatchBob, rfl, rfl, rfl, by decide⟩)
    (by decide)

/-- The per-account details underlying an apply result, `[]` when the run
errored. -/
def accountDetailsOf (x : Except ProviderError ApplyResult) :
    List AccountChangeDetails :=
  match x with
  | Except.ok r => r.accountResults.map (fun res => res.details)
  | Except.error _ => []

/-- The report body of an apply result, `[]` when the run errored. -/
def reportEntriesOf (x : Except ProviderError ApplyResult) :
    List AccountChangeDetails :=
  match x with
  | Except.ok r => r.report.proposed_changes
  | Except.error _ => []

/-- Claim C9: the returned report keeps exactly the per-tenant details whose
proposedChanges list is non-empty — details with an empty list are excluded,
every non-empty computed detail is included. -/
theorem report_keeps_exactly_nonempty (t : OktaGroupTemplate) (config : Config)
    (ctx : ExecutionContext) (now : Nat) (d : AccountChangeDetails) :
    d ∈ reportEntriesOf (t.apply config ctx now) ↔
      d ∈ accountDetailsOf (t.apply config ctx now) ∧ d.proposed_changes ≠ [] := by
  unfold OktaGroupTemplate.apply
  cases hc : collectOks (config.okta_organizations.map
      (fun org => t.apply_to_account org ctx now)) with
  | error e => simp [reportEntriesOf, accountDetailsOf]
  | ok rs => simp [reportEntriesOf, accountDetailsOf, List.mem_filter]

/-- A fixed detail record used to instantiate C9 concretely. -/
def dummyDetails : AccountChangeDetails :=
  { account := "a", resource_id := "r",
    new_value := { name := "n", description := "", members := [] } }

/-- Witness for C9 at a concrete run and detail record. -/
theorem report_keeps_exactly_nonempty_witness :
    dummyDetails ∈ reportEntriesOf (tpl0.apply cfg0 ctxDetect 0) ↔
      dummyDetails ∈ accountDetailsOf (tpl0.apply cfg0 ctxDetect 0) ∧
      dummyDetails.proposed_changes ≠ [] :=
  report_keeps_exactly_nonempty tpl0 cfg0 ctxDetect 0 dummyDetails

theorem collectOks_ok_forall2 {xs : List (Except ProviderError ReconcileResult)}
    {rs : List ReconcileResult} (h : collectOks xs = Except.ok rs) :
    List.Forall₂ (fun x r => x = Except.ok r) xs rs := by
  induction xs generalizing rs with
  | nil =>
      simp only [collectOks, Except.ok.injEq] at h
      subst h
      exact List.Forall₂.nil
  | cons x xt ih =>
      cases x with
      | error e => simp [collectOks] at h
      | ok r =>
          rw [collectOks] at h
          cases hrec : collectOks xt with
          | error e =>
              rw [hrec] at h
              simp at h
          | ok rs2 =>
              rw [hrec] at h
              simp only [Except.ok.injEq] at h
              subst h
              exact List.Forall₂.cons rfl (ih hrec)

/-- Claim C10: the per-tenant results align one-to-one, in configured-tenant
order, with config.okta_organizations, and the report list is the
order-preserving restriction (a sublist) of those per-tenant details. -/
theorem report_preserves_configured_order (t : OktaGroupTemplate) (config : Config)
    (ctx : ExecutionContext) (now : Nat) (r : ApplyResult)
    (h : t.apply config ctx now = Except.ok r) :
    List.Forall₂ (fun org res => t.apply_to_account org ctx now = Except.ok res)
      config.okta_organizations r.accountResults ∧
    r.report.proposed_changes.Sublist (r.accountResults.map (fun res => res.details)) := by
  unfold OktaGroupTemplate.apply at h
  cases hc : collectOks (config.okta_organizations.map
      (fun org => t.apply_to_account org ctx now)) with
  | error e =>
      rw [hc] at h
      exact Except.noConfusion h
  | ok rs =>
      rw [hc] at h
      simp only [Except.ok.injEq] at h
      subst h
      constructor
      · exact List.forall₂_map_left_iff.mp (collectOks_ok_forall2 hc)
      · exact List.filter_sublist _

/-- Witness for C10 at a concrete detect run whose result is extracted by
evaluation. -/
theorem report_preserves_configured_order_witness :
    List.Forall₂ (fun org res => tpl0.apply_to_account org ctxDetect 0 = Except.ok res)
      cfg0.okta_organizations
      (applyResultOr (tpl0.apply cfg0 ctxDetect 0)).accountResults ∧
    (applyResultOr (tpl0.apply cfg0 ctxDetect 0)).report.proposed_changes.Sublist
      ((applyResultOr (tpl0.apply cfg0 ctxDetect 0)).accountResults.map
        (fun res => res.details)) :=
  report_preserves_configured_order tpl0 cfg0 ctxDetect 0
    (applyResultOr (tpl0.apply cfg0 ctxDetect 0)) (by decide)

end Iambic
